import Mathlib

/-!
Verification development for the ALICE Legal AI repository.

The repository ships the Next.js console (`frontend/app/page.tsx`), the typed
HTTP client (`frontend/lib/api/client.ts`), the zustand store
(`frontend/lib/hooks/use-store.ts`) and the relational schema
(`database/migrations/006_domain.sql`).  The Rust legal engine behind port
8081 is not part of the source tree, so the engine-side operations
(`analyze`, `riskScore`, `compile`, `listTemplates`) are modelled from the
specification, each marked `Modelled from the spec:` in its doc comment.
JavaScript numbers are embedded as rationals (ℚ), JS strings as Lean
strings, thrown exceptions as `Except` errors.
-/

namespace ALICE

/-- The language options rendered by the console, from `LANGUAGES` in
`frontend/app/page.tsx` (value/label pairs). -/
def LANGUAGES : List (String × String) :=
  [("en", "English"), ("ja", "Japanese"), ("de", "German"), ("fr", "French")]

/-- The template options rendered by the console, from `TEMPLATES` in
`frontend/app/page.tsx` (value/label pairs). -/
def TEMPLATES : List (String × String) :=
  [ ("nda", "Non-Disclosure Agreement (NDA)")
  , ("sla", "Service Level Agreement (SLA)")
  , ("dpa", "Data Processing Agreement (DPA)")
  , ("tos", "Terms of Service (ToS)")
  , ("privacy", "Privacy Policy")
  , ("employment", "Employment Agreement")
  , ("license", "Software License Agreement")
  ]

/-- The risk level computed by the `RiskBadge` component in
`frontend/app/page.tsx`:
`score >= 0.7 ? "critical" : score >= 0.5 ? "high" : score >= 0.3 ? "medium" : "low"`. -/
def riskBadgeLevel (score : ℚ) : String :=
  if score ≥ 7/10 then "critical"
  else if score ≥ 1/2 then "high"
  else if score ≥ 3/10 then "medium"
  else "low"

/-- The spec wording of the `level(risk_score)` mapping, with inclusive lower
bounds: `< 0.3 → low`, `[0.3, 0.5) → medium`, `[0.5, 0.7) → high`,
`>= 0.7 → critical`. -/
def levelOf (s : ℚ) : String :=
  if s < 3/10 then "low"
  else if s < 1/2 then "medium"
  else if s < 7/10 then "high"
  else "critical"

/-- Typed engine failures (spec §7). -/
inductive EngineError
  | EmptyDocument
  | UnsupportedLanguage
  | TemplateNotFound
  | MalformedInput
deriving DecidableEq

/-- Modelled from the spec: the supported language set of the engine
(the engine source is not in the repository); matches the console
`LANGUAGES` values and the documented set {en, ja, de, fr}. -/
def supportedLanguages : List String := ["en", "ja", "de", "fr"]

/-- A clause of the analysis result (client type `Clause` plus the numeric
score the spec requires the level to be derived from). -/
structure Clause where
  id : String
  text : String
  clause_type : String
  risk_level : String
  risk_score : ℚ
deriving DecidableEq

/-- An issue of the analysis result (client type `Issue`). -/
structure Issue where
  id : String
  description : String
  severity : String
  location : String
deriving DecidableEq

/-- The analysis response (client type `AnalyzeResponse`). -/
structure AnalysisResult where
  risk_score : ℚ
  clauses : List Clause
  issues : List Issue
  language : String
  word_count : Nat
deriving DecidableEq

/-- A factor of the risk breakdown (client type `RiskFactor`). -/
structure RiskFactor where
  factor : String
  weight : ℚ
  score : ℚ
  description : String
deriving DecidableEq

/-- The risk-score response (client type `RiskScoreResponse`). -/
structure RiskScoreResult where
  overall_score : ℚ
  risk_level : String
  risk_factors : List RiskFactor
  recommendations : List String
deriving DecidableEq

/-- The compile response (client type `CompileResponse`). -/
structure CompileResult where
  template_id : String
  compiled_document : String
  variables_applied : Nat
  missing_variables : List String
deriving DecidableEq

/-- Template catalog entry exposed by `listTemplates` (client type
`TemplateInfo`). -/
structure TemplateInfo where
  id : String
  name : String
  description : String
  required_variables : List String
  language_support : List String
deriving DecidableEq

/-- The templates response (client type `TemplatesResponse`). -/
structure TemplatesResponse where
  templates : List TemplateInfo
  count : Nat
deriving DecidableEq

/-- `String.prototype.trim` over the character list (drops leading and
trailing whitespace). -/
def jsTrim (s : String) : String :=
  ⟨((s.data.dropWhile Char.isWhitespace).reverse.dropWhile Char.isWhitespace).reverse⟩

/-- Lower-cased copy of a string. -/
def toLowerStr (s : String) : String :=
  ⟨s.data.map Char.toLower⟩

/-- Splits a character list at every character satisfying `p`; the
separators are dropped and empty runs are kept. -/
def splitWhen (p : Char → Bool) (l : List Char) : List (List Char) :=
  l.foldr
    (fun c r =>
      if p c then [] :: r
      else
        match r with
        | [] => [[c]]
        | h :: t => (c :: h) :: t)
    [[]]

/-- `pat` is a leading segment of `l`. -/
def startsWithList : List Char → List Char → Bool
  | _, [] => true
  | [], _ :: _ => false
  | a :: as, b :: bs => a = b && startsWithList as bs

/-- `pat` occurs somewhere inside `l`. -/
def containsList (l pat : List Char) : Bool :=
  match l with
  | [] => startsWithList [] pat
  | _ :: rest => startsWithList l pat || containsList rest pat

/-- True when `pat` occurs inside `s`. -/
def containsSub (s pat : String) : Bool :=
  containsList s.data pat.data

/-- Modelled from the spec: whitespace-delimited token count computed by the
document preprocessor (engine source not in the repository). -/
def wordCount (text : String) : Nat :=
  ((splitWhen Char.isWhitespace text.data).filter (fun w => w ≠ [])).length

/-- Modelled from the spec: clause segmentation on sentence terminators
(engine source not in the repository); degenerate inputs still yield one
clause spanning the whole text. -/
def segmentText (text : String) : List String :=
  let parts :=
    ((splitWhen (fun c => c = '.') text.data).map (fun l => jsTrim ⟨l⟩)).filter
      (fun s => s ≠ "")
  if parts = [] then [jsTrim text] else parts

/-- Modelled from the spec: the ranked clause-type rules of the classifier
(keyword, clause type, base risk weight), evaluated first-match-wins
(engine source not in the repository; concrete keywords and weights are
configuration the spec leaves open). -/
def classifyRules : List (String × String × ℚ) :=
  [ ("indemnif", ("Indemnification", 3/4))
  , ("intellectual property", ("IP Assignment", 3/5))
  , ("liab", ("Liability", 7/10))
  , ("terminat", ("Termination", 1/2))
  , ("confidential", ("Confidentiality", 2/5))
  , ("jurisdiction", ("Jurisdiction", 1/4))
  ]

/-- Modelled from the spec: first rule whose keyword occurs in the clause
wins; clauses matching no rule get type `Other`. -/
def classify (txt : String) : String × ℚ :=
  match classifyRules.find? (fun r => containsSub (toLowerStr txt) r.1) with
  | some r => r.2
  | none => ("Other", 1/5)

/-- Modelled from the spec: per-clause risk score, a bounded linear
combination of the base clause-type weight and a local unlimited-liability
signal, clamped to [0,1]. -/
def scoreClause (txt : String) : ℚ :=
  let base := (classify txt).2
  let bonus : ℚ := if containsSub (toLowerStr txt) "unlimited" then 1/4 else 0
  min 1 (max 0 (base + bonus))

/-- Sequential request-scoped clause identifier (`clause-001`, ...). -/
def clauseId (i : Nat) : String :=
  let k := i + 1
  "clause-" ++ (if k < 10 then "00" else if k < 100 then "0" else "") ++ toString k

/-- Modelled from the spec: clause assembly; `risk_level` is always derived
from `risk_score` through `levelOf`, never set independently. -/
def mkClause (i : Nat) (txt : String) : Clause :=
  let s := scoreClause txt
  { id := clauseId i
  , text := txt
  , clause_type := (classify txt).1
  , risk_level := levelOf s
  , risk_score := s }

/-- Clauses of a segmented document, in appearance order. -/
def mkClauses (txts : List String) : List Clause :=
  txts.enum.map (fun p => mkClause p.1 p.2)

/-- Modelled from the spec: length-weighted average of clause scores. -/
def weightedAvg (cls : List Clause) : ℚ :=
  let tot : ℚ := cls.foldl (fun a c => a + (c.text.length : ℚ)) 0
  if tot = 0 then 0
  else cls.foldl (fun a c => a + (c.text.length : ℚ) * c.risk_score) 0 / tot

/-- Modelled from the spec: the floor raised by the presence of any critical
clause (score ≥ 0.7). -/
def criticalFloor (cls : List Clause) : ℚ :=
  if cls.any (fun c => c.risk_score ≥ 7/10) then 7/10 else 0

/-- Modelled from the spec: document-level risk score, the maximum of the
length-weighted average and the critical-clause floor. -/
def docRiskScore (cls : List Clause) : ℚ :=
  max (weightedAvg cls) (criticalFloor cls)

/-- Modelled from the spec: the structural issue detector (independent rule
set; severity assigned by the rule, location `"document"` when global). -/
def detectIssues (cls : List Clause) : List Issue :=
  if cls.any (fun c => c.clause_type = "Termination") then []
  else
    [ { id := "issue-001"
      , description := "No termination clause detected."
      , severity := "high"
      , location := "document" } ]

/-- Modelled from the spec: the successful analysis result assembly. -/
def analyzeResult (text lang : String) : AnalysisResult :=
  let cls := mkClauses (segmentText text)
  { risk_score := docRiskScore cls
  , clauses := cls
  , issues := detectIssues cls
  , language := lang
  , word_count := wordCount text }

/-- Modelled from the spec: the engine `analyze` operation.  The
preprocessor rejects an unsupported language code, then an empty or
whitespace-only document (spec §4.1 order). -/
def analyze (text lang : String) : Except EngineError AnalysisResult :=
  if lang ∈ supportedLanguages then
    if jsTrim text = "" then Except.error EngineError.EmptyDocument
    else Except.ok (analyzeResult text lang)
  else Except.error EngineError.UnsupportedLanguage

theorem analyze_ok (text lang : String) (r : AnalysisResult)
    (h : analyze text lang = Except.ok r) : r = analyzeResult text lang := by
  unfold analyze at h
  split at h
  · split at h
    · exact absurd h (by simp)
    · injection h with h2
      exact h2.symm
  · exact absurd h (by simp)

/-- Modelled from the spec: the fixed risk-factor configuration of the risk
aggregator (factor name, weight, description); weights are configuration
summing to 1.0 (engine source not in the repository; the README example
documents the 0.30 Liability weight). -/
def factorConfig : List (String × ℚ × String) :=
  [ ("Liability", (3/10, "Exposure from liability clauses."))
  , ("Indemnification", (1/5, "Indemnity obligations taken on."))
  , ("IP Assignment", (3/20, "Transfer of intellectual property rights."))
  , ("Termination", (3/20, "Exit and termination conditions."))
  , ("Confidentiality", (1/10, "Confidentiality obligations."))
  , ("Jurisdiction", (1/10, "Governing law and venue."))
  ]

/-- Modelled from the spec: a factor's score is the maximum clause risk
score among clauses mapped to the factor, defaulting to 0 when none maps. -/
def factorScore (fname : String) (cls : List Clause) : ℚ :=
  (cls.filter (fun c => c.clause_type = fname)).foldl (fun a c => max a c.risk_score) 0

/-- Modelled from the spec: the per-document risk-factor breakdown built
over the fixed configuration. -/
def riskFactors (cls : List Clause) : List RiskFactor :=
  factorConfig.map (fun f =>
    { factor := f.1, weight := f.2.1, score := factorScore f.1 cls, description := f.2.2 })

/-- Modelled from the spec: `overall_score = Σ (weight_i * score_i)`. -/
def overallScore (fs : List RiskFactor) : ℚ :=
  fs.foldl (fun a f => a + f.weight * f.score) 0

/-- Modelled from the spec: templated recommendations for factors at or
above the 0.5 trigger threshold, closed by the fixed counsel disclaimer. -/
def recommendationsFor (fs : List RiskFactor) : List String :=
  ((fs.filter (fun f => f.score ≥ 1/2)).map
    (fun f => "Review the " ++ f.factor ++ " provisions before signing."))
  ++ ["Engage qualified legal counsel before signing."]

/-- Modelled from the spec: the successful risk-score result assembly. -/
def riskScoreResult (text : String) : RiskScoreResult :=
  let fs := riskFactors (mkClauses (segmentText text))
  { overall_score := overallScore fs
  , risk_level := levelOf (overallScore fs)
  , risk_factors := fs
  , recommendations := recommendationsFor fs }

/-- Modelled from the spec: the engine `riskScore` operation; an empty or
whitespace-only document fails with `EmptyDocument`. -/
def riskScore (text : String) : Except EngineError RiskScoreResult :=
  if jsTrim text = "" then Except.error EngineError.EmptyDocument
  else Except.ok (riskScoreResult text)

theorem riskScore_ok (text : String) (r : RiskScoreResult)
    (h : riskScore text = Except.ok r) : r = riskScoreResult text := by
  unfold riskScore at h
  split at h
  · exact absurd h (by simp)
  · injection h with h2
    exact h2.symm

/-- A segment of a scanned template body: a literal run or a `\x7b\x7bname\x7d\x7d`
placeholder marker. -/
inductive TSeg
  | lit (s : String)
  | var (name : String)
deriving DecidableEq

/-- A catalog template (client type `TemplateInfo` plus the body); the body
is represented as its scanned segment sequence. -/
structure Template where
  id : String
  name : String
  description : String
  body : List TSeg
  required_variables : List String
  language_support : List String
deriving DecidableEq

/-- Modelled from the spec: the NDA template of the registry; the README
documents its four required variables. -/
def ndaTemplate : Template :=
  { id := "nda"
  , name := "Non-Disclosure Agreement"
  , description := "Mutual non-disclosure agreement."
  , body :=
      [ TSeg.lit "NON-DISCLOSURE AGREEMENT\n\nThis Agreement is entered into on "
      , TSeg.var "effective_date"
      , TSeg.lit " between ", TSeg.var "party_a"
      , TSeg.lit " and ", TSeg.var "party_b"
      , TSeg.lit ", governed by the laws of ", TSeg.var "jurisdiction"
      , TSeg.lit "." ]
  , required_variables := ["party_a", "party_b", "effective_date", "jurisdiction"]
  , language_support := ["en", "ja", "de"] }

/-- Modelled from the spec: the remaining six templates of the registry
(bodies and required variables are registry configuration the spec leaves
open beyond the NDA example). -/
def otherTemplates : List Template :=
  [ { id := "sla", name := "Service Level Agreement"
    , description := "Service level agreement."
    , body := [ TSeg.lit "SERVICE LEVEL AGREEMENT\n\nProvider: ", TSeg.var "provider"
              , TSeg.lit "\nClient: ", TSeg.var "client"
              , TSeg.lit "\nGuaranteed uptime: ", TSeg.var "uptime" ]
    , required_variables := ["provider", "client", "uptime"]
    , language_support := ["en", "ja", "de", "fr"] }
  , { id := "dpa", name := "Data Processing Agreement"
    , description := "Data processing agreement."
    , body := [ TSeg.lit "DATA PROCESSING AGREEMENT\n\nController: ", TSeg.var "controller"
              , TSeg.lit "\nProcessor: ", TSeg.var "processor" ]
    , required_variables := ["controller", "processor"]
    , language_support := ["en", "de", "fr"] }
  , { id := "tos", name := "Terms of Service"
    , description := "Terms of service."
    , body := [ TSeg.lit "TERMS OF SERVICE\n\nCompany: ", TSeg.var "company"
              , TSeg.lit "\nEffective: ", TSeg.var "effective_date" ]
    , required_variables := ["company", "effective_date"]
    , language_support := ["en", "ja", "de", "fr"] }
  , { id := "privacy", name := "Privacy Policy"
    , description := "Privacy policy."
    , body := [ TSeg.lit "PRIVACY POLICY\n\nCompany: ", TSeg.var "company" ]
    , required_variables := ["company"]
    , language_support := ["en", "ja", "de", "fr"] }
  , { id := "employment", name := "Employment Agreement"
    , description := "Employment agreement."
    , body := [ TSeg.lit "EMPLOYMENT AGREEMENT\n\nEmployer: ", TSeg.var "employer"
              , TSeg.lit "\nEmployee: ", TSeg.var "employee"
              , TSeg.lit "\nStart date: ", TSeg.var "start_date" ]
    , required_variables := ["employer", "employee", "start_date"]
    , language_support := ["en", "ja"] }
  , { id := "license", name := "Software License Agreement"
    , description := "Software license agreement."
    , body := [ TSeg.lit "SOFTWARE LICENSE AGREEMENT\n\nLicensor: ", TSeg.var "licensor"
              , TSeg.lit "\nLicensee: ", TSeg.var "licensee" ]
    , required_variables := ["licensor", "licensee"]
    , language_support := ["en", "de"] }
  ]

/-- Modelled from the spec: the fixed, read-only template registry, in the
documented order `nda, sla, dpa, tos, privacy, employment, license`. -/
def templates : List Template := ndaTemplate :: otherTemplates

/-- Case-sensitive lookup of a variable binding in the caller map. -/
def lookupVar (vars : List (String × String)) (n : String) : Option String :=
  (vars.find? (fun p => p.1 = n)).map (fun p => p.2)

/-- Modelled from the spec: single-pass literal rendering of a body segment;
a placeholder with no binding is left verbatim, a bound value is inserted as
literal text only (no re-expansion). -/
def renderSeg (vars : List (String × String)) : TSeg → String
  | TSeg.lit s => s
  | TSeg.var n =>
      match lookupVar vars n with
      | some v => v
      | none => "\x7b\x7b" ++ n ++ "\x7d\x7d"

/-- The set of placeholder names actually present in a template body. -/
def placeholderNames (t : Template) : List String :=
  (t.body.filterMap (fun s =>
    match s with
    | TSeg.var n => some n
    | TSeg.lit _ => none)).dedup

/-- Modelled from the spec: the template compiler.  `variables_applied`
counts placeholders present in both the template and the input map;
`missing_variables` lists required variables absent from the input map, in
declaration order. -/
def compileTemplate (t : Template) (vars : List (String × String)) : CompileResult :=
  { template_id := t.id
  , compiled_document := String.join (t.body.map (renderSeg vars))
  , variables_applied := ((placeholderNames t).filter (fun n => (lookupVar vars n).isSome)).length
  , missing_variables := t.required_variables.filter (fun n => (lookupVar vars n).isNone) }

/-- Modelled from the spec: the engine `compile` operation; an unknown
template id fails with `TemplateNotFound`, a known id always compiles. -/
def compile (tid : String) (vars : List (String × String)) : Except EngineError CompileResult :=
  match templates.find? (fun t => t.id = tid) with
  | some t => Except.ok (compileTemplate t vars)
  | none => Except.error EngineError.TemplateNotFound

/-- Modelled from the spec: the engine `listTemplates` operation; a total
function with no failure case, returning the catalog in registry order with
its count. -/
def listTemplates : TemplatesResponse :=
  { templates := templates.map (fun t =>
      { id := t.id, name := t.name, description := t.description
      , required_variables := t.required_variables
      , language_support := t.language_support })
  , count := templates.length }

/-- A row of `public.documents` in `006_domain.sql`; uuid keys are
abstracted as naturals, columns not involved in referencing are kept to the
representative `title`/`language` payload. -/
structure DocRow where
  id : Nat
  title : String
  language : String
deriving DecidableEq

/-- A row of `public.analysis_results`; `document_id` is a nullable foreign
key into `documents` declared `on delete cascade`. -/
structure AnalysisRow where
  id : Nat
  document_id : Option Nat
  analysis_type : String
  risk_level : Option String
deriving DecidableEq

/-- A row of `public.clauses`; `document_id` is a nullable foreign key into
`documents` declared `on delete cascade`. -/
structure ClauseRow where
  id : Nat
  document_id : Option Nat
  clause_type : String
  clause_text : String
  risk_score : Option ℚ
deriving DecidableEq

/-- The three domain tables of `006_domain.sql`. -/
structure DBState where
  documents : List DocRow
  analysis_results : List AnalysisRow
  clauses : List ClauseRow
deriving DecidableEq

/-- A non-null `document_id` must reference an existing document row. -/
def referencesOk (docs : List DocRow) : Option Nat → Bool
  | none => true
  | some d => docs.any (fun doc => doc.id = d)

/-- Referential integrity of the schema: every non-null `document_id` in
`analysis_results` and `clauses` names an existing `documents` row. -/
def refIntegrity (db : DBState) : Prop :=
  (∀ r ∈ db.analysis_results, referencesOk db.documents r.document_id = true)
  ∧ (∀ r ∈ db.clauses, referencesOk db.documents r.document_id = true)

instance (db : DBState) : Decidable (refIntegrity db) := by
  unfold refIntegrity
  infer_instance

/-- Deletion of a document row under the schema's `on delete cascade`
foreign keys: the document goes, and with it every `analysis_results` and
`clauses` row whose `document_id` references it. -/
def deleteDocument (db : DBState) (d : Nat) : DBState :=
  { documents := db.documents.filter (fun doc => doc.id ≠ d)
  , analysis_results := db.analysis_results.filter (fun r => r.document_id ≠ some d)
  , clauses := db.clauses.filter (fun r => r.document_id ≠ some d) }

/-- The response data the `request` helper of `frontend/lib/api/client.ts`
acts on: `ok`/`status`/`statusText` of the fetch response and the text the
body reads as (`""` when the read itself fails, per the `catch` fallback). -/
structure HttpResponse where
  ok : Bool
  status : Nat
  statusText : String
  bodyText : String
deriving DecidableEq

/-- The error message `request` throws on a non-ok response:
`` `${res.status} ${res.statusText}${text ? `: ${text}` : ""}` ``. -/
def errMessage (res : HttpResponse) : String :=
  toString res.status ++ " " ++ res.statusText
    ++ (if res.bodyText = "" then "" else ": " ++ res.bodyText)

/-- The response handling of the `request` helper in
`frontend/lib/api/client.ts`: a non-ok status throws the status-line error,
an ok status resolves to the parsed JSON body (the body a successful
`res.json()` yields; the fetch and parse themselves are external I/O). -/
def requestResult (T : Type) (res : HttpResponse) (parsedBody : T) : Except String T :=
  if !res.ok then Except.error (errMessage res)
  else Except.ok parsedBody

/-- A stored result of the console, from `LegalResult` in
`frontend/lib/hooks/use-store.ts` (tagged `analyze`/`compile`/`risk`). -/
inductive LegalResult
  | analyzeRes (d : AnalysisResult)
  | compileRes (d : CompileResult)
  | riskRes (d : RiskScoreResult)
deriving DecidableEq

/-- The store and local state the console handlers act on: `result` and
`loading` from `useLegalStore`, `error` from the page's local state. -/
structure UIState where
  result : Option LegalResult
  loading : Bool
  error : Option String
deriving DecidableEq

/-- `handleAnalyze` of `frontend/app/page.tsx` as a state transformer: the
guard returns before any request when the document trims empty; otherwise
`setLoading(true)`, `setError(null)`, then the awaited client call either
stores the result or stores the thrown message, and `finally` clears
`loading`.  `outcome` is what the awaited `legalClient.analyze` call did
(the thrown error's message on failure). -/
def handleAnalyze (doc : String) (st : UIState)
    (outcome : Except String AnalysisResult) : UIState :=
  if jsTrim doc = "" then st
  else
    let st1 := { st with loading := true }
    let st2 := { st1 with error := none }
    let st3 :=
      match outcome with
      | Except.ok res => { st2 with result := some (LegalResult.analyzeRes res) }
      | Except.error msg => { st2 with error := some msg }
    { st3 with loading := false }

/-- `handleCompile` of `frontend/app/page.tsx` as a state transformer: the
guard returns when no template is selected; otherwise the same
load/try/catch/finally shape around `legalClient.compile`. -/
def handleCompile (tid : String) (st : UIState)
    (outcome : Except String CompileResult) : UIState :=
  if tid = "" then st
  else
    let st1 := { st with loading := true }
    let st2 := { st1 with error := none }
    let st3 :=
      match outcome with
      | Except.ok res => { st2 with result := some (LegalResult.compileRes res) }
      | Except.error msg => { st2 with error := some msg }
    { st3 with loading := false }

/-- `handleRiskScore` of `frontend/app/page.tsx` as a state transformer:
same shape as `handleAnalyze` around `legalClient.riskScore`. -/
def handleRiskScore (doc : String) (st : UIState)
    (outcome : Except String RiskScoreResult) : UIState :=
  if jsTrim doc = "" then st
  else
    let st1 := { st with loading := true }
    let st2 := { st1 with error := none }
    let st3 :=
      match outcome with
      | Except.ok res => { st2 with result := some (LegalResult.riskRes res) }
      | Except.error msg => { st2 with error := some msg }
    { st3 with loading := false }

theorem analyze_ok_of (text lang : String) (h1 : lang ∈ supportedLanguages)
    (h2 : jsTrim text ≠ "") :
    analyze text lang = Except.ok (analyzeResult text lang) := by
  unfold analyze
  rw [if_pos h1, if_neg h2]

theorem riskScore_ok_of (text : String) (h : jsTrim text ≠ "") :
    riskScore text = Except.ok (riskScoreResult text) := by
  unfold riskScore
  rw [if_neg h]

theorem mem_mkClauses_level (c : Clause) (txts : List String)
    (h : c ∈ mkClauses txts) : c.risk_level = levelOf c.risk_score := by
  obtain ⟨p, -, rfl⟩ := List.mem_map.mp h
  rfl

/-- C1: for every score s in [0,1] the derived risk level follows the fixed
inclusive-lower-bound thresholds (`< 0.3 → low`, `[0.3,0.5) → medium`,
`[0.5,0.7) → high`, `>= 0.7 → critical`); the frontend `RiskBadge` mapping
agrees with the spec mapping, every clause of an analysis result carries
`risk_level = level(risk_score)`, and the document-level risk level of a
risk-score result is derived from its overall score. -/
theorem c1_risk_level_consistency (s : ℚ) (_h0 : 0 ≤ s) (_h1 : s ≤ 1)
    (text lang doc2 : String) (r : AnalysisResult) (r2 : RiskScoreResult)
    (ha : analyze text lang = Except.ok r) (hr : riskScore doc2 = Except.ok r2) :
    riskBadgeLevel s = levelOf s
  ∧ (s < 3/10 → levelOf s = "low")
  ∧ (3/10 ≤ s → s < 1/2 → levelOf s = "medium")
  ∧ (1/2 ≤ s → s < 7/10 → levelOf s = "high")
  ∧ (7/10 ≤ s → levelOf s = "critical")
  ∧ (∀ c ∈ r.clauses, c.risk_level = levelOf c.risk_score)
  ∧ r2.risk_level = levelOf r2.overall_score := by
  obtain rfl := analyze_ok text lang r ha
  obtain rfl := riskScore_ok doc2 r2 hr
  refine ⟨?_, ?_, ?_, ?_, ?_, ?_, rfl⟩
  · unfold riskBadgeLevel levelOf
    split_ifs <;> first | rfl | linarith
  · intro h
    unfold levelOf
    rw [if_pos h]
  · intro ha2 hb
    unfold levelOf
    rw [if_neg (by linarith), if_pos hb]
  · intro ha2 hb
    unfold levelOf
    rw [if_neg (by linarith), if_neg (by linarith), if_pos hb]
  · intro h
    unfold levelOf
    rw [if_neg (by linarith), if_neg (by linarith), if_neg (by linarith)]
  · intro c hc
    exact mem_mkClauses_level c (segmentText text) hc

theorem c1_witness :
    (0 : ℚ) ≤ 1/2 ∧ (1 : ℚ)/2 ≤ 1 ∧ riskBadgeLevel (1/2) = levelOf (1/2) :=
  ⟨by norm_num, by norm_num,
    (c1_risk_level_consistency (1/2) (by norm_num) (by norm_num)
      "The parties agree" "en" "The parties agree"
      (analyzeResult "The parties agree" "en")
      (riskScoreResult "The parties agree")
      (analyze_ok_of "The parties agree" "en" (by decide) (by decide))
      (riskScore_ok_of "The parties agree" (by decide))).1⟩

/-- C3: whenever `analyze` accepts a document and some clause of the result
is independently scored critical (clause score ≥ 0.7), the document-level
risk score is ≥ 0.7; the aggregate equals the maximum of the
length-weighted average of clause scores and the critical-clause floor. -/
theorem c3_critical_floor (text lang : String) (r : AnalysisResult)
    (h : analyze text lang = Except.ok r)
    (hex : ∃ c ∈ r.clauses, 7/10 ≤ c.risk_score) :
    7/10 ≤ r.risk_score
  ∧ r.risk_score = max (weightedAvg r.clauses) (criticalFloor r.clauses) := by
  obtain rfl := analyze_ok text lang r h
  constructor
  · obtain ⟨c, hc, hs⟩ := hex
    have hany : (mkClauses (segmentText text)).any
        (fun c => c.risk_score ≥ 7/10) = true := by
      refine List.any_eq_true.mpr ⟨c, hc, ?_⟩
      exact decide_eq_true hs
    have hfloor : criticalFloor (mkClauses (segmentText text)) = 7/10 := by
      unfold criticalFloor
      rw [if_pos hany]
    show 7/10 ≤ docRiskScore (mkClauses (segmentText text))
    unfold docRiskScore
    rw [hfloor]
    exact le_max_right _ _
  · rfl

theorem c3_witness :
    7/10 ≤ (analyzeResult "The supplier accepts liability for all damages" "en").risk_score :=
  (c3_critical_floor "The supplier accepts liability for all damages" "en"
    (analyzeResult "The supplier accepts liability for all damages" "en")
    (analyze_ok_of "The supplier accepts liability for all damages" "en"
      (by decide) (by decide))
    ⟨mkClause 0 "The supplier accepts liability for all damages",
      List.mem_singleton_self _,
      by
        show (7 : ℚ)/10 ≤ min 1 (max 0 (7/10 + 0))
        norm_num⟩).1

/-- C5: for every input text and every language code outside {en, ja, de,
fr}, `analyze` fails with the typed `UnsupportedLanguage` error and
produces no result; the supported set is exactly {en, ja, de, fr}, and the
console language options agree with it. -/
theorem c5_unsupported_language (text lang : String)
    (h : lang ∉ supportedLanguages) :
    analyze text lang = Except.error EngineError.UnsupportedLanguage
  ∧ supportedLanguages = ["en", "ja", "de", "fr"]
  ∧ LANGUAGES.map (fun p => p.1) = supportedLanguages := by
  refine ⟨?_, rfl, rfl⟩
  unfold analyze
  rw [if_neg h]

theorem c5_witness :
    "xx" ∉ supportedLanguages
  ∧ analyze "Some contract text" "xx" = Except.error EngineError.UnsupportedLanguage :=
  ⟨by decide,
    (c5_unsupported_language "Some contract text" "xx" (by decide)).1⟩

/-- C6: an empty or whitespace-only document makes `analyze` (under a
supported language, which is checked first) and `riskScore` fail with the
typed `EmptyDocument` error, and the console handlers `handleAnalyze` and
`handleRiskScore` return without issuing any request, leaving the state
untouched. -/
theorem c6_empty_document (text lang : String) (st : UIState)
    (oA : Except String AnalysisResult) (oR : Except String RiskScoreResult)
    (h : jsTrim text = "") :
    (lang ∈ supportedLanguages →
      analyze text lang = Except.error EngineError.EmptyDocument)
  ∧ riskScore text = Except.error EngineError.EmptyDocument
  ∧ handleAnalyze text st oA = st
  ∧ handleRiskScore text st oR = st := by
  refine ⟨fun hl => ?_, ?_, ?_, ?_⟩
  · unfold analyze
    rw [if_pos hl, if_pos h]
  · unfold riskScore
    rw [if_pos h]
  · unfold handleAnalyze
    rw [if_pos h]
  · unfold handleRiskScore
    rw [if_pos h]

theorem c6_witness :
    analyze "   " "en" = Except.error EngineError.EmptyDocument
  ∧ riskScore "   " = Except.error EngineError.EmptyDocument
  ∧ handleAnalyze "   " ⟨none, false, none⟩ (Except.error "boom")
      = ⟨none, false, none⟩ := by
  obtain ⟨h1, h2, h3, -⟩ :=
    c6_empty_document "   " "en" ⟨none, false, none⟩
      (Except.error "boom") (Except.error "boom") (by decide)
  exact ⟨h1 (by decide), h2, h3⟩

/-- C7: `listTemplates` always returns exactly the seven configured
templates with ids `nda, sla, dpa, tos, privacy, employment, license`, in
order, with `count = 7` (it is a total function with no failure case), and
the console template options agree with the catalog. -/
theorem c7_list_templates :
    listTemplates.templates.map TemplateInfo.id
      = ["nda", "sla", "dpa", "tos", "privacy", "employment", "license"]
  ∧ listTemplates.count = 7
  ∧ listTemplates.count = listTemplates.templates.length
  ∧ TEMPLATES.map (fun p => p.1) = listTemplates.templates.map TemplateInfo.id :=
  ⟨by decide, rfl, rfl, by decide⟩

/-- C2: for every known template id and every variable map, `compile`
succeeds with a best-effort document: unresolved placeholders stay
verbatim, `missing_variables` lists exactly the required variables absent
from the map (in declaration order), `variables_applied` counts the
placeholders actually substituted; in particular `compile("nda", ∅)` with
the four required NDA variables yields `variables_applied = 0` and four
missing variables. -/
theorem c2_compile_best_effort (tid : String) (vars : List (String × String))
    (t : Template) (h : templates.find? (fun u => u.id = tid) = some t) :
    (∃ r, compile tid vars = Except.ok r
      ∧ r.missing_variables
          = t.required_variables.filter (fun n => (lookupVar vars n).isNone)
      ∧ (∀ n ∈ r.missing_variables,
            n ∈ t.required_variables ∧ lookupVar vars n = none)
      ∧ r.variables_applied
          = ((placeholderNames t).filter (fun n => (lookupVar vars n).isSome)).length
      ∧ r.compiled_document = String.join (t.body.map (renderSeg vars))
      ∧ (∀ n, lookupVar vars n = none →
            renderSeg vars (TSeg.var n) = "\x7b\x7b" ++ n ++ "\x7d\x7d"))
  ∧ (∃ r0, compile "nda" [] = Except.ok r0
      ∧ r0.variables_applied = 0
      ∧ r0.missing_variables.length = 4) := by
  constructor
  · refine ⟨compileTemplate t vars, ?_, rfl, ?_, rfl, rfl, ?_⟩
    · unfold compile
      rw [h]
    · intro n hn
      have hn2 : n ∈ t.required_variables.filter
          (fun n => (lookupVar vars n).isNone) := hn
      obtain ⟨hmem, hnone⟩ := List.mem_filter.mp hn2
      exact ⟨hmem, Option.isNone_iff_eq_none.mp hnone⟩
    · intro n hn
      simp [renderSeg, hn]
  · exact ⟨compileTemplate ndaTemplate [], rfl, by decide, by decide⟩

theorem c2_witness :
    ∃ r0, compile "nda" [] = Except.ok r0
      ∧ r0.variables_applied = 0
      ∧ r0.missing_variables.length = 4 :=
  (c2_compile_best_effort "nda" [] ndaTemplate rfl).2

theorem foldl_add_map (g : RiskFactor → ℚ) (l : List RiskFactor) (a : ℚ) :
    l.foldl (fun acc f => acc + g f) a = a + (l.map g).sum := by
  induction l generalizing a with
  | nil => simp
  | cons x xs ih => simp [ih, add_assoc]

/-- C4: for every document `riskScore` accepts, the returned factor weights
sum to 1.0 within tolerance 1e-6; each factor's weight is the fixed
configured weight for its category regardless of document content, each
factor's score is the maximum clause risk among clauses mapped to it
(defaulting to 0 when none maps), and
`overall_score = Σ (weight_i * score_i)`. -/
theorem c4_risk_factor_breakdown (text : String) (r : RiskScoreResult)
    (h : riskScore text = Except.ok r) :
    |((r.risk_factors.map RiskFactor.weight).sum) - 1| ≤ 1/1000000
  ∧ r.risk_factors.map (fun f => (f.factor, f.weight))
      = factorConfig.map (fun f => (f.1, f.2.1))
  ∧ (∀ f ∈ r.risk_factors,
        f.score = factorScore f.factor (mkClauses (segmentText text)))
  ∧ (∀ fname, (mkClauses (segmentText text)).filter
        (fun c => c.clause_type = fname) = []
      → factorScore fname (mkClauses (segmentText text)) = 0)
  ∧ r.overall_score = (r.risk_factors.map (fun f => f.weight * f.score)).sum := by
  obtain rfl := riskScore_ok text r h
  refine ⟨?_, rfl, ?_, ?_, ?_⟩
  · show |(((riskFactors (mkClauses (segmentText text))).map
        RiskFactor.weight).sum) - 1| ≤ 1/1000000
    simp [riskFactors, factorConfig]
    norm_num
  · intro f hf
    have hf2 : f ∈ riskFactors (mkClauses (segmentText text)) := hf
    obtain ⟨cfg, -, rfl⟩ := List.mem_map.mp hf2
    rfl
  · intro fname hfil
    unfold factorScore
    rw [hfil]
    rfl
  · show overallScore (riskFactors (mkClauses (segmentText text)))
      = (((riskFactors (mkClauses (segmentText text))).map
          (fun f => f.weight * f.score)).sum)
    unfold overallScore
    rw [foldl_add_map (fun f => f.weight * f.score), zero_add]

theorem c4_witness :
    |(((riskScoreResult "The contract").risk_factors.map RiskFactor.weight).sum) - 1|
      ≤ 1/1000000 :=
  (c4_risk_factor_breakdown "The contract" (riskScoreResult "The contract")
    (riskScore_ok_of "The contract" (by decide))).1

theorem referencesOk_filter (docs : List DocRow) (d : Nat) (o : Option Nat)
    (h : referencesOk docs o = true) (hne : o ≠ some d) :
    referencesOk (docs.filter (fun doc => doc.id ≠ d)) o = true := by
  match o with
  | none => rfl
  | some k =>
    have hk : k ≠ d := fun e => hne (by rw [e])
    simp only [referencesOk, List.any_eq_true] at h ⊢
    obtain ⟨doc, hdoc, hid⟩ := h
    refine ⟨doc, List.mem_filter.mpr ⟨hdoc, ?_⟩, hid⟩
    have : doc.id = k := of_decide_eq_true hid
    exact decide_eq_true (by rw [this]; exact hk)

/-- C8: under the schema's `on delete cascade` foreign keys, deleting a
document row removes every `analysis_results` and `clauses` row referencing
it, and referential integrity is preserved: after any document removal no
`analysis_results` or `clauses` row references a non-existent document. -/
theorem c8_cascade_delete (db : DBState) (d : Nat) (h : refIntegrity db) :
    refIntegrity (deleteDocument db d)
  ∧ (∀ r ∈ (deleteDocument db d).analysis_results, r.document_id ≠ some d)
  ∧ (∀ r ∈ (deleteDocument db d).clauses, r.document_id ≠ some d)
  ∧ (∀ doc ∈ (deleteDocument db d).documents, doc.id ≠ d) := by
  obtain ⟨hA, hC⟩ := h
  refine ⟨⟨?_, ?_⟩, ?_, ?_, ?_⟩
  · intro r hr
    obtain ⟨hmem, hpred⟩ := List.mem_filter.mp hr
    exact referencesOk_filter db.documents d r.document_id (hA r hmem)
      (of_decide_eq_true hpred)
  · intro r hr
    obtain ⟨hmem, hpred⟩ := List.mem_filter.mp hr
    exact referencesOk_filter db.documents d r.document_id (hC r hmem)
      (of_decide_eq_true hpred)
  · intro r hr
    exact of_decide_eq_true (List.mem_filter.mp hr).2
  · intro r hr
    exact of_decide_eq_true (List.mem_filter.mp hr).2
  · intro doc hdoc
    exact of_decide_eq_true (List.mem_filter.mp hdoc).2

theorem c8_witness :
    refIntegrity (deleteDocument
      { documents := [⟨1, "NDA draft", "en"⟩, ⟨2, "SLA draft", "en"⟩]
      , analysis_results :=
          [⟨10, some 1, "risk", some "low"⟩, ⟨11, some 2, "risk", none⟩]
      , clauses := [⟨20, some 1, "Liability", "some text", none⟩] } 1) :=
  (c8_cascade_delete
    { documents := [⟨1, "NDA draft", "en"⟩, ⟨2, "SLA draft", "en"⟩]
    , analysis_results :=
        [⟨10, some 1, "risk", some "low"⟩, ⟨11, some 2, "risk", none⟩]
    , clauses := [⟨20, some 1, "Liability", "some text", none⟩] } 1
    (by decide)).1

/-- C9: for every HTTP response handled by the client `request` helper, a
non-ok status yields a thrown error (never a value) whose message starts
with the status code and status text, optionally followed by the response
body; an ok status returns the parsed JSON body. -/
theorem c9_request_errors (T : Type) (res : HttpResponse) (body : T) :
    (res.ok = false →
      requestResult T res body = Except.error (errMessage res)
      ∧ (∃ tail, errMessage res
            = toString res.status ++ " " ++ res.statusText ++ tail))
  ∧ (res.ok = true → requestResult T res body = Except.ok body) := by
  constructor
  · intro h
    refine ⟨by simp [requestResult, h], ?_⟩
    exact ⟨if res.bodyText = "" then "" else ": " ++ res.bodyText, rfl⟩
  · intro h
    simp [requestResult, h]

theorem c9_witness :
    requestResult Nat ⟨false, 404, "Not Found", "missing"⟩ 7
      = Except.error (errMessage ⟨false, 404, "Not Found", "missing"⟩)
  ∧ requestResult Nat ⟨true, 200, "OK", ""⟩ 7 = Except.ok 7 :=
  ⟨((c9_request_errors Nat ⟨false, 404, "Not Found", "missing"⟩ 7).1 rfl).1,
    (c9_request_errors Nat ⟨true, 200, "OK", ""⟩ 7).2 rfl⟩

/-- C10: every console handler (`handleAnalyze`, `handleCompile`,
`handleRiskScore`) leaves `loading = false` after it completes, whether the
client call succeeds or throws; when the call throws, the stored result is
unchanged and `error` carries the failure message; the result is only
replaced on success (with `error` cleared). -/
theorem c10_handler_state (doc tid : String) (st : UIState)
    (oA : Except String AnalysisResult) (oC : Except String CompileResult)
    (oR : Except String RiskScoreResult)
    (hd : jsTrim doc ≠ "") (ht : tid ≠ "") :
    ((handleAnalyze doc st oA).loading = false
      ∧ (∀ msg, oA = Except.error msg →
            (handleAnalyze doc st oA).result = st.result
            ∧ (handleAnalyze doc st oA).error = some msg)
      ∧ (∀ v, oA = Except.ok v →
            (handleAnalyze doc st oA).result = some (LegalResult.analyzeRes v)
            ∧ (handleAnalyze doc st oA).error = none))
  ∧ ((handleCompile tid st oC).loading = false
      ∧ (∀ msg, oC = Except.error msg →
            (handleCompile tid st oC).result = st.result
            ∧ (handleCompile tid st oC).error = some msg)
      ∧ (∀ v, oC = Except.ok v →
            (handleCompile tid st oC).result = some (LegalResult.compileRes v)
            ∧ (handleCompile tid st oC).error = none))
  ∧ ((handleRiskScore doc st oR).loading = false
      ∧ (∀ msg, oR = Except.error msg →
            (handleRiskScore doc st oR).result = st.result
            ∧ (handleRiskScore doc st oR).error = some msg)
      ∧ (∀ v, oR = Except.ok v →
            (handleRiskScore doc st oR).result = some (LegalResult.riskRes v)
            ∧ (handleRiskScore doc st oR).error = none)) := by
  refine ⟨⟨?_, ?_, ?_⟩, ⟨?_, ?_, ?_⟩, ⟨?_, ?_, ?_⟩⟩
  · unfold handleAnalyze
    rw [if_neg hd]
  · intro msg hm
    subst hm
    unfold handleAnalyze
    rw [if_neg hd]
    exact ⟨rfl, rfl⟩
  · intro v hv
    subst hv
    unfold handleAnalyze
    rw [if_neg hd]
    exact ⟨rfl, rfl⟩
  · unfold handleCompile
    rw [if_neg ht]
  · intro msg hm
    subst hm
    unfold handleCompile
    rw [if_neg ht]
    exact ⟨rfl, rfl⟩
  · intro v hv
    subst hv
    unfold handleCompile
    rw [if_neg ht]
    exact ⟨rfl, rfl⟩
  · unfold handleRiskScore
    rw [if_neg hd]
  · intro msg hm
    subst hm
    unfold handleRiskScore
    rw [if_neg hd]
    exact ⟨rfl, rfl⟩
  · intro v hv
    subst hv
    unfold handleRiskScore
    rw [if_neg hd]
    exact ⟨rfl, rfl⟩

theorem c10_witness :
    (handleAnalyze "The parties agree" ⟨none, false, none⟩
        (Except.error "500 Internal Server Error")).loading = false
  ∧ (handleAnalyze "The parties agree" ⟨none, false, none⟩
        (Except.error "500 Internal Server Error")).error
      = some "500 Internal Server Error" := by
  obtain ⟨⟨h1, h2, -⟩, -, -⟩ :=
    c10_handler_state "The parties agree" "nda" ⟨none, false, none⟩
      (Except.error "500 Internal Server Error")
      (Except.error "500 Internal Server Error")
      (Except.error "500 Internal Server Error")
      (by decide) (by decide)
  exact ⟨h1, (h2 "500 Internal Server Error" rfl).2⟩

end ALICE
